import Mathlib

/-!
# Verification of the policy metrics exporter and demo command runner

Shallow embedding of `src/observability/policy-metrics-exporter.py` and of
`CloudNativeDemo.run_command` from `src/scripts/demo.py`.

The exporter keeps five Prometheus metric families (two counters, three
gauges), a module-level boolean `metrics_initialized`, and a routine
`collect_gatekeeper_violations` whose whole body sits inside a single
`try`/`except` block.  We model the registry as explicit state
(`ExpState`), each registry call as an operation (`RegOp`), and a possible
registry exception at an individual registry call through a failure
schedule `failAt : Nat → Bool` indexed over the fallible registry calls of
one invocation, in execution order.  A raised exception aborts the rest of
the body (Python `try` semantics) and is caught by the `except`, which
logs an error line.
-/

/-- Registry and process state of the exporter:
the five metric families (series values keyed by their label values,
defaulting to 0 for series never touched), the module-level
`metrics_initialized` flag, and the emitted log lines. -/
structure ExpState where
  /-- `policy_violations_total` counter, labels `policy`, `severity`. -/
  pv : String → String → Nat
  /-- `deployment_blocked_total` counter, label `reason`. -/
  db : String → Nat
  /-- `vulnerability_count` gauge, label `severity`. -/
  vc : String → ℚ
  /-- `policy_validation_duration_seconds` gauge, label `policy`. -/
  pvd : String → ℚ
  /-- `vulnerability_scan_status` gauge, label `image`. -/
  vss : String → ℚ
  /-- module-level `metrics_initialized`. -/
  metrics_initialized : Bool
  /-- informational and error log lines emitted so far. -/
  log : List String

/-- Process start: no series incremented or set, flag `False`, no logs. -/
def initState : ExpState :=
  { pv := fun _ _ => 0
    db := fun _ => 0
    vc := fun _ => 0
    pvd := fun _ => 0
    vss := fun _ => 0
    metrics_initialized := false
    log := [] }

/-- One statement of the body of `collect_gatekeeper_violations`:
a registry call (`.inc` on a counter series, `.set` on a gauge series),
a `logger.info` line, the `metrics_initialized = True` assignment, or the
final `if not metrics_initialized: logger.info(...)` guard. -/
inductive RegOp where
  | incPV (policy severity : String) (delta : Nat)
  | incDB (reason : String) (delta : Nat)
  | setVC (severity : String) (v : ℚ)
  | setPVD (policy : String) (v : ℚ)
  | setVSS (image : String) (v : ℚ)
  | logInfo (msg : String)
  | setFlag
  | logIfNotInit (msg : String)
deriving DecidableEq

/-- Registry calls can raise (the `except` exists for them); plain
assignments and log statements do not. -/
def RegOp.fallible : RegOp → Bool
  | .incPV _ _ _ => true
  | .incDB _ _ => true
  | .setVC _ _ => true
  | .setPVD _ _ => true
  | .setVSS _ _ => true
  | .logInfo _ => false
  | .setFlag => false
  | .logIfNotInit _ => false

/-- Effect of one statement on the state.  `.inc(d)` adds `d` to the one
series named by the labels; `.set(v)` overwrites that series. -/
def RegOp.apply : RegOp → ExpState → ExpState
  | .incPV p sev d, s =>
      { s with pv := fun x y => s.pv x y + (if x = p ∧ y = sev then d else 0) }
  | .incDB r d, s =>
      { s with db := fun x => s.db x + (if x = r then d else 0) }
  | .setVC sev v, s =>
      { s with vc := fun x => if x = sev then v else s.vc x }
  | .setPVD p v, s =>
      { s with pvd := fun x => if x = p then v else s.pvd x }
  | .setVSS i v, s =>
      { s with vss := fun x => if x = i then v else s.vss x }
  | .logInfo m, s => { s with log := s.log ++ [m] }
  | .setFlag, s => { s with metrics_initialized := true }
  | .logIfNotInit m, s =>
      if s.metrics_initialized then s else { s with log := s.log ++ [m] }

/-- Run statements in order.  `failAt k` says whether the `k`-th fallible
registry call of this invocation raises; a raise stops execution there
(the failing call has no effect) and reports `true` in the last
component.  The middle component is the running count of fallible calls
executed. -/
def runOps (failAt : Nat → Bool) : List RegOp → ExpState → Nat → ExpState × Nat × Bool
  | [], s, k => (s, k, false)
  | op :: rest, s, k =>
      if op.fallible then
        if failAt k then (s, k, true)
        else runOps failAt rest (op.apply s) (k + 1)
      else runOps failAt rest (op.apply s) k

/-- The statements of the `if not metrics_initialized:` block, in source
order: 11 `POLICY_VIOLATIONS.labels(...).inc(...)` calls in 4 experiment
groups, each group closed by a `logger.info`, then the 4
`DEPLOYMENT_BLOCKED.labels(...).inc(...)` calls.  (`metrics_initialized =
True`, which ends the block, is appended by `callOps`.) -/
def seedOps : List RegOp := [
  .incPV "require-non-root" "high" 5,
  .incPV "no-privileged-containers" "critical" 2,
  .incPV "read-only-filesystem" "medium" 3,
  .logInfo "Generated Experiment 1 violations: Root user and privileged containers",
  .incPV "require-resource-limits" "medium" 4,
  .incPV "require-health-checks" "medium" 3,
  .incPV "require-readiness-probe" "low" 2,
  .logInfo "Generated Experiment 2 violations: Missing resource limits and health checks",
  .incPV "no-critical-vulnerabilities" "critical" 15,
  .logInfo "Generated Experiment 3 violations: 3 CRITICAL, 12 HIGH CVEs detected",
  .incPV "require-encryption" "high" 2,
  .incPV "no-public-access" "high" 3,
  .incPV "require-backup-retention" "medium" 1,
  .incPV "require-security-groups" "high" 1,
  .logInfo "Generated Experiment 4 violations: Unencrypted resources and public access",
  .incDB "security-violation" 2,
  .incDB "critical-vulnerabilities" 1,
  .incDB "terraform-violation" 1,
  .incDB "missing-encryption" 1]

/-- The unconditional gauge updates, in source order (values such as
`0.045` written as explicit rationals). -/
def gaugeOps : List RegOp := [
  .setVC "critical" 3,
  .setVC "high" 12,
  .setVC "medium" 8,
  .setVC "low" 15,
  .setPVD "kubernetes-security" (45 / 1000),
  .setPVD "terraform-security" (23 / 1000),
  .setPVD "vulnerability-scan" (1205 / 10),
  .setPVD "bestpractices" (35 / 1000),
  .setVSS "api-service-vulnerable" 0,
  .setVSS "api-service-secure" 1,
  .setVSS "worker-service" 1]

/-- `logger.info` text of the final `if not metrics_initialized:` guard. -/
def successMsg : String :=
  "Successfully generated all policy violation metrics for 4 experiments"

/-- `logger.error` text of the `except` handler (exception detail elided). -/
def errorMsg : String := "Error generating metrics"

/-- The statements of one invocation of the routine's `try` body, given the
value of `metrics_initialized` at entry: the guarded seeding block
(including the `metrics_initialized = True` assignment) when the flag is
false, then the gauge updates, then the final guard. -/
def callOps (initialized : Bool) : List RegOp :=
  (if initialized then [] else seedOps ++ [.setFlag]) ++
    gaugeOps ++ [.logIfNotInit successMsg]

/-- `collect_gatekeeper_violations`: run the `try` body under the failure
schedule; if some registry call raised, the `except` logs the error line;
either way the routine returns normally. -/
def collect_gatekeeper_violations (failAt : Nat → Bool) (s : ExpState) : ExpState :=
  let r := runOps failAt (callOps s.metrics_initialized) s 0
  if r.2.2 then { r.1 with log := r.1.log ++ [errorMsg] } else r.1

/-- No registry call raises. -/
def noFail : Nat → Bool := fun _ => false

/-- State after `n` invocations of `collect_gatekeeper_violations` starting
from `s`; invocation `i` runs under failure schedule `sched i`. -/
def iterCollect (sched : Nat → Nat → Bool) : Nat → ExpState → ExpState
  | 0, s => s
  | n + 1, s => collect_gatekeeper_violations (sched n) (iterCollect sched n s)

/-- Sum of the seed deltas for one `policy_violations_total` series, read
off the seeding block. -/
def pvSeedSum (p sev : String) : Nat :=
  seedOps.foldl
    (fun acc op =>
      acc + match op with
        | .incPV p' s' d => if p = p' ∧ sev = s' then d else 0
        | _ => 0) 0

/-- Sum of the seed deltas for one `deployment_blocked_total` series. -/
def dbSeedSum (r : String) : Nat :=
  seedOps.foldl
    (fun acc op =>
      acc + match op with
        | .incDB r' d => if r = r' then d else 0
        | _ => 0) 0

/-! ## Helper lemmas (shared) -/

/-- Running a concatenation: run the first part; on a raise, stop there,
otherwise continue with the second part. -/
lemma runOps_append (failAt : Nat → Bool) (l1 l2 : List RegOp) (s : ExpState) (k : Nat) :
    runOps failAt (l1 ++ l2) s k =
      if (runOps failAt l1 s k).2.2 then runOps failAt l1 s k
      else runOps failAt l2 (runOps failAt l1 s k).1 (runOps failAt l1 s k).2.1 := by
  induction l1 generalizing s k with
  | nil => simp [runOps]
  | cons op rest ih =>
      simp only [List.cons_append, runOps]
      by_cases hf : op.fallible
      · by_cases hk : failAt k <;> simp [hf, hk, ih]
      · simp [hf, ih]

/-- A property preserved by the effect of every listed statement is
preserved by running them, whatever the failure schedule. -/
lemma runOps_preserve (P : ExpState → Prop) (failAt : Nat → Bool)
    (ops : List RegOp) (s : ExpState) (k : Nat)
    (hops : ∀ op ∈ ops, ∀ t, P t → P (op.apply t)) (hs : P s) :
    P (runOps failAt ops s k).1 := by
  induction ops generalizing s k with
  | nil => exact hs
  | cons op rest ih =>
      simp only [runOps]
      have hop := hops op (List.mem_cons_self _ _)
      have hrest : ∀ o ∈ rest, ∀ t, P t → P (o.apply t) :=
        fun o ho => hops o (List.mem_cons_of_mem _ ho)
      by_cases hf : op.fallible
      · by_cases hk : failAt k <;> simp [hf, hk]
        · exact hs
        · exact ih _ _ hrest (hop s hs)
      · simp only [hf, if_false, Bool.false_eq_true]
        exact ih _ _ hrest (hop s hs)

/-- Every statement effect keeps a true `metrics_initialized` true. -/
lemma apply_flag_mono (op : RegOp) (t : ExpState)
    (h : t.metrics_initialized = true) :
    (op.apply t).metrics_initialized = true := by
  cases op <;> simp [RegOp.apply, h]

/-- Once `metrics_initialized` is true, one routine invocation keeps it
true, whatever the failure schedule. -/
lemma collect_flag_mono (failAt : Nat → Bool) (s : ExpState)
    (h : s.metrics_initialized = true) :
    (collect_gatekeeper_violations failAt s).metrics_initialized = true := by
  unfold collect_gatekeeper_violations
  have := runOps_preserve (fun t => t.metrics_initialized = true) failAt
    (callOps s.metrics_initialized) s 0 (fun op _ => apply_flag_mono op) h
  dsimp only
  split <;> simpa using this

/-- Any statement other than a `POLICY_VIOLATIONS ... .inc` leaves the
`policy_violations_total` family untouched. -/
lemma apply_pv_eq (op : RegOp) (h : ∀ p sev d, op ≠ RegOp.incPV p sev d)
    (t : ExpState) : (op.apply t).pv = t.pv := by
  cases op <;> try rfl
  case incPV p sev d => exact absurd rfl (h p sev d)
  case logIfNotInit m =>
    simp only [RegOp.apply]
    split <;> rfl

/-- Any statement other than a `DEPLOYMENT_BLOCKED ... .inc` leaves the
`deployment_blocked_total` family untouched. -/
lemma apply_db_eq (op : RegOp) (h : ∀ r d, op ≠ RegOp.incDB r d)
    (t : ExpState) : (op.apply t).db = t.db := by
  cases op <;> try rfl
  case incDB r d => exact absurd rfl (h r d)
  case logIfNotInit m =>
    simp only [RegOp.apply]
    split <;> rfl

/-- With `metrics_initialized` already true, an invocation leaves both
counter families untouched, whatever the failure schedule: the seeding
block is skipped and the remaining statements only set gauges, log or
test the flag. -/
lemma collect_counters_of_init (failAt : Nat → Bool) (s : ExpState)
    (h : s.metrics_initialized = true) :
    (collect_gatekeeper_violations failAt s).pv = s.pv ∧
    (collect_gatekeeper_violations failAt s).db = s.db := by
  unfold collect_gatekeeper_violations
  have key := runOps_preserve (fun t => t.pv = s.pv ∧ t.db = s.db) failAt
    (callOps s.metrics_initialized) s 0 ?hop ⟨rfl, rfl⟩
  · dsimp only
    split
    · exact ⟨key.1, key.2⟩
    · exact key
  case hop =>
    intro op hop t ht
    rw [h] at hop
    have h1 : ∀ p sev d, op ≠ RegOp.incPV p sev d := by
      intro p sev d heq
      subst heq
      simp [callOps, gaugeOps, successMsg] at hop
    have h2 : ∀ r d, op ≠ RegOp.incDB r d := by
      intro r d heq
      subst heq
      simp [callOps, gaugeOps, successMsg] at hop
    exact ⟨by rw [apply_pv_eq op h1, ht.1], by rw [apply_db_eq op h2, ht.2]⟩

/-- First invocation from process start: every `policy_violations_total`
series ends at exactly the sum of its seed deltas. -/
lemma pv_after_first (p sev : String) :
    (collect_gatekeeper_violations noFail initState).pv p sev = pvSeedSum p sev := by
  simp [collect_gatekeeper_violations, callOps, initState, seedOps, gaugeOps,
    runOps, RegOp.apply, RegOp.fallible, noFail, pvSeedSum]

/-- First invocation from process start: every `deployment_blocked_total`
series ends at exactly the sum of its seed deltas. -/
lemma db_after_first (r : String) :
    (collect_gatekeeper_violations noFail initState).db r = dbSeedSum r := by
  simp [collect_gatekeeper_violations, callOps, initState, seedOps, gaugeOps,
    runOps, RegOp.apply, RegOp.fallible, noFail, dbSeedSum]

/-- A failure-free invocation ends with every gauge series at its fixed
seed value, whatever the starting state. -/
lemma gauges_after_collect (s : ExpState) :
    (collect_gatekeeper_violations noFail s).vc "critical" = 3 ∧
    (collect_gatekeeper_violations noFail s).vc "high" = 12 ∧
    (collect_gatekeeper_violations noFail s).vc "medium" = 8 ∧
    (collect_gatekeeper_violations noFail s).vc "low" = 15 ∧
    (collect_gatekeeper_violations noFail s).pvd "kubernetes-security" = 45 / 1000 ∧
    (collect_gatekeeper_violations noFail s).pvd "terraform-security" = 23 / 1000 ∧
    (collect_gatekeeper_violations noFail s).pvd "vulnerability-scan" = 1205 / 10 ∧
    (collect_gatekeeper_violations noFail s).pvd "bestpractices" = 35 / 1000 ∧
    (collect_gatekeeper_violations noFail s).vss "api-service-vulnerable" = 0 ∧
    (collect_gatekeeper_violations noFail s).vss "api-service-secure" = 1 ∧
    (collect_gatekeeper_violations noFail s).vss "worker-service" = 1 := by
  cases h : s.metrics_initialized <;>
    simp [collect_gatekeeper_violations, callOps, h, seedOps, gaugeOps,
      runOps, RegOp.apply, RegOp.fallible, noFail]

/-- The flag is true after every failure-free run of at least one
invocation from process start. -/
lemma flag_after_iter (n : Nat) (h : 1 ≤ n) :
    (iterCollect (fun _ _ => false) n initState).metrics_initialized = true := by
  induction n with
  | zero => exact absurd h (by simp)
  | succ m ih =>
      rcases Nat.eq_or_lt_of_le h with h1 | h1
      · have : m = 0 := by omega
        subst this
        decide
      · exact collect_flag_mono _ _ (ih (by omega))

/-- When running the statements raises, the statement list splits at the
failing registry call: the final state is exactly the fold of the
effects of the statements before it — those keep their effect, the
failing call and everything after it are skipped. -/
lemma runOps_raised_prefix (failAt : Nat → Bool) (ops : List RegOp)
    (s : ExpState) (k : Nat)
    (h : (runOps failAt ops s k).2.2 = true) :
    ∃ done failOp remaining, ops = done ++ failOp :: remaining ∧
      failOp.fallible = true ∧
      (runOps failAt ops s k).1 = done.foldl (fun t op => op.apply t) s := by
  induction ops generalizing s k with
  | nil => simp [runOps] at h
  | cons op rest ih =>
      by_cases hf : op.fallible
      · by_cases hk : failAt k
        · exact ⟨[], op, rest, rfl, hf, by simp [runOps, hf, hk]⟩
        · have h2 : (runOps failAt rest (op.apply s) (k + 1)).2.2 = true := by
            simpa [runOps, hf, hk] using h
          obtain ⟨d, f, r2, hsplit, hff, hstate⟩ := ih _ _ h2
          refine ⟨op :: d, f, r2, by rw [hsplit, List.cons_append], hff, ?_⟩
          simpa [runOps, hf, hk, List.foldl_cons] using hstate
      · have h2 : (runOps failAt rest (op.apply s) k).2.2 = true := by
          simpa [runOps, hf] using h
        obtain ⟨d, f, r2, hsplit, hff, hstate⟩ := ih _ _ h2
        refine ⟨op :: d, f, r2, by rw [hsplit, List.cons_append], hff, ?_⟩
        simpa [runOps, hf, List.foldl_cons] using hstate

/-- Statements that are a `logger.info` line. -/
def RegOp.isLogInfo : RegOp → Bool
  | .logInfo _ => true
  | _ => false

/-- Statements whose effect can never put the final-guard success line
into the log: anything except a `logger.info` of that very line and
except the final guard itself. -/
def keepsNoSuccess (op : RegOp) : Bool :=
  match op with
  | .logInfo m => m != successMsg
  | .logIfNotInit _ => false
  | _ => true

/-- A statement classified by `keepsNoSuccess` cannot introduce the
success line into the log. -/
lemma apply_no_success (op : RegOp) (hop : keepsNoSuccess op = true)
    (t : ExpState) (h : successMsg ∉ t.log) :
    successMsg ∉ (op.apply t).log := by
  cases op <;> simp_all [RegOp.apply, keepsNoSuccess]
  exact fun heq => hop heq.symm

/-- With the flag already true, running any statements that contain no
plain `logger.info` line keeps the flag true and adds no success line:
gauge updates touch no log, and the final guard sees a true flag. -/
lemma apply_keep_init (op : RegOp) (hop : op.isLogInfo = false) (t : ExpState)
    (h : t.metrics_initialized = true ∧ successMsg ∉ t.log) :
    (op.apply t).metrics_initialized = true ∧
      successMsg ∉ (op.apply t).log := by
  cases op <;> simp_all [RegOp.apply, RegOp.isLogInfo]

/-- No invocation can add the final-guard success line to the log: when
the flag starts false, the `metrics_initialized = True` assignment runs
before the guard is reached (and an exception skips the guard entirely);
when it starts true, the guard test fails. -/
lemma collect_no_success (failAt : Nat → Bool) (s : ExpState)
    (h : successMsg ∉ s.log) :
    successMsg ∉ (collect_gatekeeper_violations failAt s).log := by
  have herr : successMsg ≠ errorMsg := by decide
  have core : successMsg ∉ (runOps failAt (callOps s.metrics_initialized) s 0).1.log := by
    cases hflag : s.metrics_initialized
    · -- flag false: the seeding block and the flag assignment run first
      have hsplit : callOps false =
          seedOps ++
            (RegOp.setFlag :: (gaugeOps ++ [RegOp.logIfNotInit successMsg])) := by
        simp [callOps]
      rw [hsplit, runOps_append]
      have hseed : ∀ op ∈ seedOps, keepsNoSuccess op = true := by decide
      have h1 := runOps_preserve (fun t => successMsg ∉ t.log) failAt seedOps s 0
        (fun op hop t ht => apply_no_success op (hseed op hop) t ht) h
      split
      · exact h1
      · simp only [runOps, RegOp.fallible]
        have hrest : ∀ op ∈ gaugeOps ++ [RegOp.logIfNotInit successMsg],
            op.isLogInfo = false := by decide
        have h2 := runOps_preserve
          (fun t => t.metrics_initialized = true ∧ successMsg ∉ t.log) failAt
          (gaugeOps ++ [RegOp.logIfNotInit successMsg])
          (RegOp.setFlag.apply (runOps failAt seedOps s 0).1)
          (runOps failAt seedOps s 0).2.1
          (fun op hop t ht => apply_keep_init op (hrest op hop) t ht) ⟨rfl, h1⟩
        exact h2.2
    · -- flag true: the guard test fails
      have hops : ∀ op ∈ callOps true, op.isLogInfo = false := by decide
      have h2 := runOps_preserve
        (fun t => t.metrics_initialized = true ∧ successMsg ∉ t.log) failAt
        (callOps true) s 0
        (fun op hop t ht => apply_keep_init op (hops op hop) t ht) ⟨hflag, h⟩
      exact h2.2
  unfold collect_gatekeeper_violations
  dsimp only
  split
  · simp only [ExpState.log, List.mem_append, List.mem_singleton]
    exact fun hx => Or.elim hx core (fun he => herr he)
  · exact core

/-! ## The run loop of `main` -/

/-- Observable step of `main`'s run loop: an invocation of
`collect_gatekeeper_violations`, or a `time.sleep`. -/
inductive MainEvent where
  | update
  | sleep (duration : Nat)
deriving DecidableEq

/-- The infinite event trace of `main` after the HTTP server start: one
immediate update, then forever a 60-unit sleep followed by an update. -/
def mainEvent : Nat → MainEvent
  | 0 => .update
  | n + 1 => if n % 2 = 0 then .sleep 60 else .update

/-- Whether the `try` body of one invocation raises under the given
failure schedule (the exception the `except` clause catches). -/
def collectRaised (failAt : Nat → Bool) (s : ExpState) : Bool :=
  (runOps failAt (callOps s.metrics_initialized) s 0).2.2

/-! ## `CloudNativeDemo.run_command` from `src/scripts/demo.py` -/

/-- Outcome of the underlying `subprocess.run` invocation (whichever of
the platform-specific branches performed it): it can raise
`TimeoutExpired`, raise `FileNotFoundError`, raise some other exception
(message attached), or complete with a return code, a captured stdout and
a captured stderr. -/
inductive CmdOutcome where
  | timedOut
  | notFound
  | raised (msg : String)
  | completed (returncode : Int) (stdout stderr : String)
deriving DecidableEq

/-- Python `str.split()` with no argument, character by character: split
on runs of whitespace, discarding empty tokens (so leading and trailing
whitespace yields no token).  `acc` holds the characters of the token in
progress, reversed. -/
def splitWsAux : List Char → List Char → List String
  | [], acc => if acc.isEmpty then [] else [String.mk acc.reverse]
  | c :: cs, acc =>
      if c.isWhitespace then
        if acc.isEmpty then splitWsAux cs []
        else String.mk acc.reverse :: splitWsAux cs []
      else splitWsAux cs (c :: acc)

/-- `command.split()` as evaluated inside the `FileNotFoundError`
handler. -/
def pySplit (s : String) : List String := splitWsAux s.toList []

/-- `CloudNativeDemo.run_command`, as `Except`: `.ok (returned value,
error lines printed via print_error)` when the call returns, `.error`
when an exception escapes to the caller.  The only escaping exception is
the `IndexError` raised by `command.split()[0]` inside the
`FileNotFoundError` handler when the command string has no whitespace-
separated token (an exception raised inside an `except` block is not
caught by the sibling handlers).  `none` models Python `None`; the
truthiness tests `if result.stdout` / `if result.stderr` are emptiness
tests on the captured strings. -/
def run_command (command : String) (capture_output : Bool) (timeout : Nat)
    (outcome : CmdOutcome) : Except String (Option String × List String) :=
  match outcome with
  | .timedOut =>
      .ok (none, ["Command timed out after " ++ toString timeout ++ "s: " ++ command])
  | .notFound =>
      match pySplit command with
      | [] => .error "IndexError: list index out of range"
      | tok :: _ =>
          .ok (none, ["Command not found. Make sure the tool is installed: " ++ tok])
  | .raised e => .ok (none, ["Command failed: " ++ e])
  | .completed rc out err =>
      if rc ≠ 0 ∧ capture_output then
        .ok ((if out ≠ "" then some out else none),
          if err ≠ "" then ["Command error: " ++ err] else [])
      else
        .ok ((if capture_output then some out else none), [])

/-- Unfolding one invocation step of the run loop. -/
lemma iterCollect_succ (sched : Nat → Nat → Bool) (n : Nat) (s : ExpState) :
    iterCollect sched (n + 1) s =
      collect_gatekeeper_violations (sched n) (iterCollect sched n s) := rfl

/-- The `(policy, severity, delta)` increment tuples of the
`policy_violations_total` seeding block, in source order. -/
def pvSeedTuples : List (String × String × Nat) :=
  seedOps.filterMap fun op =>
    match op with
    | .incPV p sev d => some (p, sev, d)
    | _ => none

/-- Number of experiment groups in the seeding block, one per
group-closing `logger.info` line. -/
def experimentGroupCount : Nat :=
  (seedOps.filter fun op => op.isLogInfo).length

/-! ## Claims -/

/-- C1: for every `N ≥ 1`, after `N` failure-free invocations of
`collect_gatekeeper_violations` from process start, every
`policy_violations_total` and `deployment_blocked_total` series equals
the sum of its seed deltas applied exactly once: the counters are
incremented on the first invocation only and no later invocation changes
any counter value. -/
theorem c1_counters_seeded_once (n : Nat) (h : 1 ≤ n) :
    (∀ p sev, (iterCollect (fun _ _ => false) n initState).pv p sev = pvSeedSum p sev) ∧
    (∀ r, (iterCollect (fun _ _ => false) n initState).db r = dbSeedSum r) := by
  induction n with
  | zero => exact absurd h (by decide)
  | succ m ih =>
      rcases Nat.eq_zero_or_pos m with h0 | hpos
      · subst h0
        exact ⟨pv_after_first, db_after_first⟩
      · have hm := ih hpos
        have hflag := flag_after_iter m hpos
        have hpres := collect_counters_of_init ((fun _ _ => false) m)
          (iterCollect (fun _ _ => false) m initState) hflag
        refine ⟨fun p sev => ?_, fun r => ?_⟩
        · rw [iterCollect_succ, hpres.1]
          exact hm.1 p sev
        · rw [iterCollect_succ, hpres.2]
          exact hm.2 r

theorem c1_counters_seeded_once_witness :
    1 ≤ 3 ∧
    (iterCollect (fun _ _ => false) 3 initState).pv "require-non-root" "high" =
      pvSeedSum "require-non-root" "high" ∧
    (iterCollect (fun _ _ => false) 3 initState).db "security-violation" =
      dbSeedSum "security-violation" :=
  ⟨by decide,
    (c1_counters_seeded_once 3 (by decide)).1 "require-non-root" "high",
    (c1_counters_seeded_once 3 (by decide)).2 "security-violation"⟩

/-- C2 counterexample: the claim says a registry rejection on one series
leaves all remaining updates of that call applied.  False: with the
16th registry call of the first invocation raising (the
`VULNERABILITY_COUNT` `critical` set), the exception is caught and
logged, yet the very next update of the same batch
(`VULNERABILITY_COUNT` `high`, which a failure-free call sets to 12)
is left unapplied at 0. -/
theorem c2_counterexample :
    errorMsg ∈ (collect_gatekeeper_violations (fun k => k == 15) initState).log ∧
    (collect_gatekeeper_violations (fun k => k == 15) initState).vc "high" = 0 ∧
    (collect_gatekeeper_violations noFail initState).vc "high" = 12 := by decide

/-- C2 amended: whenever any single series update inside one invocation
fails — any failure schedule, any starting state — the failure is caught
and logged at the level of the whole routine (the routine still returns
a state, with the error line appended), the batch splits at the failing
registry call, updates made before the failure keep their effect (the
returned state is exactly the fold of the prefix before the failing
call), and every remaining update of that invocation's batch is skipped;
skipped gauge updates are applied again by the next successful
invocation, which restores every gauge series to its seed value. -/
theorem c2_batch_aborts_on_failure :
    (∀ failAt s, collectRaised failAt s = true →
      ∃ done failOp remaining,
        callOps s.metrics_initialized = done ++ failOp :: remaining ∧
        failOp.fallible = true ∧
        collect_gatekeeper_violations failAt s =
          { done.foldl (fun t op => op.apply t) s with
              log := (done.foldl (fun t op => op.apply t) s).log ++ [errorMsg] }) ∧
    (∀ failAt s,
      (collect_gatekeeper_violations noFail
        (collect_gatekeeper_violations failAt s)).vc "critical" = 3 ∧
      (collect_gatekeeper_violations noFail
        (collect_gatekeeper_violations failAt s)).vc "high" = 12 ∧
      (collect_gatekeeper_violations noFail
        (collect_gatekeeper_violations failAt s)).vc "medium" = 8 ∧
      (collect_gatekeeper_violations noFail
        (collect_gatekeeper_violations failAt s)).vc "low" = 15 ∧
      (collect_gatekeeper_violations noFail
        (collect_gatekeeper_violations failAt s)).pvd "kubernetes-security" = 45 / 1000 ∧
      (collect_gatekeeper_violations noFail
        (collect_gatekeeper_violations failAt s)).pvd "terraform-security" = 23 / 1000 ∧
      (collect_gatekeeper_violations noFail
        (collect_gatekeeper_violations failAt s)).pvd "vulnerability-scan" = 1205 / 10 ∧
      (collect_gatekeeper_violations noFail
        (collect_gatekeeper_violations failAt s)).pvd "bestpractices" = 35 / 1000 ∧
      (collect_gatekeeper_violations noFail
        (collect_gatekeeper_violations failAt s)).vss "api-service-vulnerable" = 0 ∧
      (collect_gatekeeper_violations noFail
        (collect_gatekeeper_violations failAt s)).vss "api-service-secure" = 1 ∧
      (collect_gatekeeper_violations noFail
        (collect_gatekeeper_violations failAt s)).vss "worker-service" = 1) := by
  constructor
  · intro failAt s hr
    unfold collectRaised at hr
    obtain ⟨d, f, rem, hsplit, hff, hstate⟩ := runOps_raised_prefix failAt _ s 0 hr
    refine ⟨d, f, rem, hsplit, hff, ?_⟩
    unfold collect_gatekeeper_violations
    dsimp only
    rw [if_pos hr, hstate]
  · intro failAt s
    exact gauges_after_collect _

theorem c2_batch_aborts_on_failure_witness :
    (∃ done failOp remaining,
      callOps initState.metrics_initialized = done ++ failOp :: remaining ∧
      failOp.fallible = true ∧
      collect_gatekeeper_violations (fun k => k == 15) initState =
        { done.foldl (fun t op => op.apply t) initState with
            log := (done.foldl (fun t op => op.apply t) initState).log ++ [errorMsg] }) ∧
    (collect_gatekeeper_violations noFail
      (collect_gatekeeper_violations (fun k => k == 15) initState)).vc "high" = 12 :=
  ⟨c2_batch_aborts_on_failure.1 (fun k => k == 15) initState (by decide),
    (c2_batch_aborts_on_failure.2 (fun k => k == 15) initState).2.1⟩

/-- C3 counterexample: the seeding block does not hold 10
`(policy, severity, delta)` tuples. -/
theorem c3_counterexample : ¬ pvSeedTuples.length = 10 := by decide

/-- C3 amended: the fixed counter seed list for `policy_violations_total`
consists of exactly 11 `(policy, severity, delta)` increment tuples,
grouped into 4 experiment groups. -/
theorem c3_seed_tuple_counts :
    pvSeedTuples.length = 11 ∧ experimentGroupCount = 4 := by decide

/-- C4: `metrics_initialized` starts false, is true after the first
completed (failure-free) invocation, and once true it is kept true by
every further invocation under every failure schedule — no operation
resets it. -/
theorem c4_flag_monotone :
    initState.metrics_initialized = false ∧
    (collect_gatekeeper_violations noFail initState).metrics_initialized = true ∧
    (∀ failAt s, s.metrics_initialized = true →
      (collect_gatekeeper_violations failAt s).metrics_initialized = true) ∧
    (∀ sched n s, s.metrics_initialized = true →
      (iterCollect sched n s).metrics_initialized = true) := by
  refine ⟨rfl, by decide, collect_flag_mono, ?_⟩
  intro sched n s hs
  induction n with
  | zero => exact hs
  | succ m ih => exact collect_flag_mono _ _ ih

theorem c4_flag_monotone_witness :
    (iterCollect (fun _ _ => true) 5
      (collect_gatekeeper_violations noFail initState)).metrics_initialized = true :=
  c4_flag_monotone.2.2.2 (fun _ _ => true) 5 _ (by decide)

/-- C5: for every `N ≥ 1`, after `N` failure-free invocations every gauge
series equals its fixed seed value, with no drift; in particular
`vulnerability_count` is 3/12/8/15 for critical/high/medium/low. -/
theorem c5_gauges_stable (n : Nat) (h : 1 ≤ n) :
    (iterCollect (fun _ _ => false) n initState).vc "critical" = 3 ∧
    (iterCollect (fun _ _ => false) n initState).vc "high" = 12 ∧
    (iterCollect (fun _ _ => false) n initState).vc "medium" = 8 ∧
    (iterCollect (fun _ _ => false) n initState).vc "low" = 15 ∧
    (iterCollect (fun _ _ => false) n initState).pvd "kubernetes-security" = 45 / 1000 ∧
    (iterCollect (fun _ _ => false) n initState).pvd "terraform-security" = 23 / 1000 ∧
    (iterCollect (fun _ _ => false) n initState).pvd "vulnerability-scan" = 1205 / 10 ∧
    (iterCollect (fun _ _ => false) n initState).pvd "bestpractices" = 35 / 1000 ∧
    (iterCollect (fun _ _ => false) n initState).vss "api-service-vulnerable" = 0 ∧
    (iterCollect (fun _ _ => false) n initState).vss "api-service-secure" = 1 ∧
    (iterCollect (fun _ _ => false) n initState).vss "worker-service" = 1 := by
  obtain ⟨m, rfl⟩ : ∃ m, n = m + 1 := ⟨n - 1, by omega⟩
  rw [iterCollect_succ]
  exact gauges_after_collect _

theorem c5_gauges_stable_witness :
    1 ≤ 2 ∧ (iterCollect (fun _ _ => false) 2 initState).vc "critical" = 3 :=
  ⟨by decide, (c5_gauges_stable 2 (by decide)).1⟩

/-- C6: `policy_violations_total{policy="require-non-root",severity="high"}`
equals 5 after one invocation and still equals 5 after a second one. -/
theorem c6_require_non_root_five :
    (iterCollect (fun _ _ => false) 1 initState).pv "require-non-root" "high" = 5 ∧
    (iterCollect (fun _ _ => false) 2 initState).pv "require-non-root" "high" = 5 := by
  decide

/-- C7: `main` performs one update immediately (event 0), then forever
alternates a 60-unit sleep and another update; an exception raised while
applying updates is caught inside `collect_gatekeeper_violations` (which
then just logs the error line and returns the state reached) and never
propagates, so the loop reaches invocation `n + 1` for every `n` under
every failure schedule. -/
theorem c7_main_loop :
    mainEvent 0 = MainEvent.update ∧
    (∀ k, mainEvent (2 * k + 1) = MainEvent.sleep 60) ∧
    (∀ k, mainEvent (2 * k + 2) = MainEvent.update) ∧
    (∀ failAt s, collectRaised failAt s = true →
      collect_gatekeeper_violations failAt s =
        { (runOps failAt (callOps s.metrics_initialized) s 0).1 with
            log := (runOps failAt (callOps s.metrics_initialized) s 0).1.log ++
              [errorMsg] }) ∧
    (∀ sched n s, iterCollect sched (n + 1) s =
      collect_gatekeeper_violations (sched n) (iterCollect sched n s)) := by
  refine ⟨rfl, fun k => ?_, fun k => ?_, fun failAt s hr => ?_, fun sched n s => rfl⟩
  · simp [mainEvent, Nat.mul_mod_right]
  · have h2 : (2 * k + 1) % 2 = 1 := by omega
    simp [mainEvent, h2]
  · unfold collectRaised at hr
    unfold collect_gatekeeper_violations
    dsimp only
    rw [if_pos hr]

theorem c7_main_loop_witness :
    mainEvent 3 = MainEvent.sleep 60 ∧
    collect_gatekeeper_violations (fun _ => true) initState =
      { (runOps (fun _ => true) (callOps initState.metrics_initialized) initState 0).1 with
          log := (runOps (fun _ => true) (callOps initState.metrics_initialized)
            initState 0).1.log ++ [errorMsg] } :=
  ⟨c7_main_loop.2.1 1,
    c7_main_loop.2.2.2.1 (fun _ => true) initState (by decide)⟩

/-- C8: if a registry call raises partway through the seeding block
(here: the 4th `policy_violations_total` increment of the first
invocation), the flag stays false and the gauge updates of that
invocation are skipped; the next invocation re-runs the whole seeding
block, so already-applied increments are applied again and the series
`require-non-root/high` ends at 10, past its single-application seed sum
of 5. -/
theorem c8_interrupted_seeding_reapplies :
    (iterCollect (fun c k => c == 0 && k == 3) 1 initState).metrics_initialized = false ∧
    errorMsg ∈ (iterCollect (fun c k => c == 0 && k == 3) 1 initState).log ∧
    (iterCollect (fun c k => c == 0 && k == 3) 1 initState).pv "require-non-root" "high" = 5 ∧
    (iterCollect (fun c k => c == 0 && k == 3) 1 initState).vc "critical" = 0 ∧
    (iterCollect (fun c k => c == 0 && k == 3) 2 initState).pv "require-non-root" "high" = 10 ∧
    pvSeedSum "require-non-root" "high" = 5 := by decide

/-- C9: the line `"Successfully generated all policy violation metrics
for 4 experiments"` is never in the log, after any number of invocations
under any failure schedule: when the guard at the end of the routine is
reached, `metrics_initialized` is already true, and when an exception
occurs the guard is skipped. -/
theorem c9_success_line_unreachable (sched : Nat → Nat → Bool) (n : Nat) :
    successMsg ∉ (iterCollect sched n initState).log := by
  induction n with
  | zero => simp [iterCollect, initState]
  | succ m ih => exact collect_no_success _ _ ih

/-- C10 counterexample: two failures of the claim as stated.  A nonzero
exit status with empty stdout and empty stderr returns `None` without
printing any error message; and a missing executable with a command
string holding no whitespace-separated token makes the handler's own
`command.split()[0]` raise `IndexError`, which propagates to the caller
instead of yielding `None`. -/
theorem c10_counterexample :
    run_command "kubectl get pods" true 60 (CmdOutcome.completed 1 "" "") =
      Except.ok (none, []) ∧
    run_command "" true 60 CmdOutcome.notFound =
      Except.error "IndexError: list index out of range" := ⟨rfl, rfl⟩

/-- C10 amended: `run_command` returns either the captured stdout or
`None`, and never propagates an exception to its caller except in one
corner: when the executable is missing and the command string holds no
whitespace-separated token, the `FileNotFoundError` handler's own
`command.split()[0]` raises `IndexError`, which does propagate.  A
timeout, any other raised exception, and a missing executable whose
command has a token all yield `None` after printing an error message; a
nonzero exit status with empty stdout yields `None`, printing an error
message exactly when the captured stderr is nonempty; a nonzero exit
status with nonempty stdout yields that stdout just as a successful
command does; and any value ever returned is `None` or the command's
captured stdout. -/
theorem c10_run_command_total (cmd : String) (cap : Bool) (t : Nat)
    (rc : Int) (out err e : String) :
    (∃ msgs, run_command cmd cap t CmdOutcome.timedOut =
      Except.ok (none, msgs) ∧ msgs ≠ []) ∧
    (∃ msgs, run_command cmd cap t (CmdOutcome.raised e) =
      Except.ok (none, msgs) ∧ msgs ≠ []) ∧
    (pySplit cmd = [] →
      run_command cmd cap t CmdOutcome.notFound =
        Except.error "IndexError: list index out of range") ∧
    (∀ tok toks, pySplit cmd = tok :: toks →
      ∃ msgs, run_command cmd cap t CmdOutcome.notFound =
        Except.ok (none, msgs) ∧ msgs ≠ []) ∧
    (rc ≠ 0 → out = "" →
      ∃ msgs, run_command cmd true t (CmdOutcome.completed rc out err) =
        Except.ok (none, msgs) ∧ (msgs ≠ [] ↔ err ≠ "")) ∧
    (rc ≠ 0 → out ≠ "" →
      run_command cmd true t (CmdOutcome.completed rc out err) =
        Except.ok (some out, if err ≠ "" then ["Command error: " ++ err] else [])) ∧
    (run_command cmd true t (CmdOutcome.completed 0 out err) =
      Except.ok (some out, [])) ∧
    (∀ oc v, run_command cmd cap t oc = Except.ok v →
      v.1 = none ∨ ∃ rc2 out2 err2, oc = CmdOutcome.completed rc2 out2 err2 ∧
        v.1 = some out2) ∧
    (∀ oc msg2, run_command cmd cap t oc = Except.error msg2 →
      oc = CmdOutcome.notFound ∧ pySplit cmd = []) := by
  refine ⟨⟨_, rfl, by simp⟩, ⟨_, rfl, by simp⟩, ?_, ?_, ?_, ?_, ?_, ?_, ?_⟩
  · intro h
    simp [run_command, h]
  · intro tok toks h
    exact ⟨["Command not found. Make sure the tool is installed: " ++ tok],
      by simp [run_command, h], by simp⟩
  · intro hrc hout
    subst hout
    by_cases herr : err = ""
    · exact ⟨[], by simp [run_command, hrc, herr], by simp [herr]⟩
    · exact ⟨["Command error: " ++ err],
        by simp [run_command, hrc, herr], by simp [herr]⟩
  · intro hrc hout
    simp [run_command, hrc, hout]
  · simp [run_command]
  · intro oc v hv
    cases oc with
    | timedOut =>
        simp only [run_command, Except.ok.injEq] at hv
        exact Or.inl (by rw [← hv])
    | notFound =>
        rcases hsplit : pySplit cmd with _ | ⟨tok, toks⟩
        · simp only [run_command, hsplit] at hv
          exact absurd hv (by simp)
        · simp only [run_command, hsplit, Except.ok.injEq] at hv
          exact Or.inl (by rw [← hv])
    | raised e2 =>
        simp only [run_command, Except.ok.injEq] at hv
        exact Or.inl (by rw [← hv])
    | completed rc2 out2 err2 =>
        by_cases h1 : rc2 ≠ 0 ∧ cap = true
        · by_cases h2 : out2 = ""
          · simp only [run_command, if_pos h1, Except.ok.injEq] at hv
            exact Or.inl (by rw [← hv]; simp [h2])
          · simp only [run_command, if_pos h1, Except.ok.injEq] at hv
            exact Or.inr ⟨rc2, out2, err2, rfl, by rw [← hv]; simp [h2]⟩
        · simp only [run_command, if_neg h1, Except.ok.injEq] at hv
          by_cases h3 : cap = true
          · exact Or.inr ⟨rc2, out2, err2, rfl, by rw [← hv]; simp [h3]⟩
          · exact Or.inl (by rw [← hv]; simp [h3])
  · intro oc msg2 hv
    cases oc with
    | timedOut => simp [run_command] at hv
    | raised e2 => simp [run_command] at hv
    | notFound =>
        rcases hsplit : pySplit cmd with _ | ⟨tok, toks⟩ <;>
          simp only [run_command, hsplit] at hv
        · exact ⟨rfl, rfl⟩
        · exact absurd hv (by simp)
    | completed rc2 out2 err2 =>
        by_cases h1 : rc2 ≠ 0 ∧ cap = true <;>
          simp [run_command, h1] at hv

theorem c10_run_command_total_witness :
    run_command "" true 60 CmdOutcome.notFound =
      Except.error "IndexError: list index out of range" ∧
    (∃ msgs, run_command "aws --version" true 10 CmdOutcome.notFound =
      Except.ok (none, msgs) ∧ msgs ≠ []) ∧
    (∃ msgs, run_command "aws --version" true 10 (CmdOutcome.completed 1 "" "boom") =
      Except.ok (none, msgs) ∧ (msgs ≠ [] ↔ ("boom" : String) ≠ "")) ∧
    run_command "aws --version" true 10 (CmdOutcome.completed 1 "some output" "boom") =
      Except.ok (some "some output", ["Command error: boom"]) :=
  ⟨(c10_run_command_total "" true 60 1 "" "" "e").2.2.1 (by decide),
    (c10_run_command_total "aws --version" true 10 1 "" "" "e").2.2.2.1
      "aws" ["--version"] (by decide),
    (c10_run_command_total "aws --version" true 10 1 "" "boom" "e").2.2.2.2.1
      (by decide) rfl,
    by
      have := (c10_run_command_total "aws --version" true 10 1 "some output" "boom"
        "e").2.2.2.2.2.1 (by decide) (by decide)
      simpa using this⟩
